import Mathlib

/-!
Shallow embedding of the umee-cosmwasm contract (src/src/contract.rs) and the
message/state types it uses.  Pure data is translated directly; contract
storage is passed explicitly as an `Option State` (the single `Item` the
contract persists); the chain host is a `Querier` function supplied in `Deps`.
CosmWasm framework types (`Response`, `Binary`, `SystemResult`,
`ContractResult`, `QueryRequest`, `StdError`) are modelled with the fields and
variants the contract exercises.  Serialization to the wire (`to_vec`) is
modelled as the identity injection into `QueryRequest`, since serde
serialization of these plain data types cannot fail; `to_binary`/`from_binary`
are modelled by a per-response-type tagged `Binary` so that decoding succeeds
exactly on a value of the declared type.
-/

namespace UmeeCW

/-- cosmwasm `Addr`, modelled as its underlying string. -/
abbrev Addr := String

/-- cosmwasm `Coin`: a denomination and an amount. -/
structure Coin where
  denom : String
  amount : Nat
deriving DecidableEq

/-- cosmwasm `MessageInfo`: the sender of the message and the funds sent. -/
structure MessageInfo where
  sender : Addr
  funds : List Coin
deriving DecidableEq

/-- cosmwasm `Env`: ignored by every handler of this contract. -/
abbrev Env := Unit

/-- Modelled from the spec: the contract's minimal persisted record, one
address field (`src/state.rs` is not in the snapshot; the spec describes "a
minimal persisted record (one address field)", and `contract.rs` reads and
writes only `state.owner`). -/
structure State where
  owner : Addr
deriving DecidableEq

/-- The contract's persisted storage: the single `STATE` item, present once
`instantiate` has saved it.  (cw2's contract-version item lives under a
separate storage key and plays no part in any handler, so it is not
modelled.) -/
abbrev Storage := Option State

/-- cosmwasm `StdError`, restricted to the variants the contract produces. -/
inductive StdError where
  | generic_err (msg : String)
  | not_found (kind : String)
  | parse_err (target : String) (msg : String)
deriving DecidableEq

/-- Modelled from the spec: `ContractError` (`src/error.rs` is not in the
snapshot).  `Unauthorized` and the custom error are the two variants
`contract.rs` raises; `Std` carries a converted `StdError` as the
`#[from]`-style variant the `?` operator uses. -/
inductive ContractError where
  | Std (e : StdError)
  | Unauthorized
  | CustomError (val : String)
deriving DecidableEq

/-- Modelled from the spec: `LendAssetParams` of the umee-types crate (its
defining file is not in the snapshot).  The contract never inspects the
fields, so they are abstracted into one opaque payload. -/
structure LendAssetParams where
  payload : String
deriving DecidableEq

/-- Modelled from the spec: `BorrowedParams` (address and denom), opaque to
the contract. -/
structure BorrowedParams where
  payload : String
deriving DecidableEq

/-- Modelled from the spec: `RegisteredTokensParams`, opaque to the contract. -/
structure RegisteredTokensParams where
  payload : String
deriving DecidableEq

/-- Modelled from the spec: `LeverageParametersParams`, opaque to the contract. -/
structure LeverageParametersParams where
  payload : String
deriving DecidableEq

/-- Modelled from the spec: `BorrowedValueParams`, opaque to the contract. -/
structure BorrowedValueParams where
  payload : String
deriving DecidableEq

/-- Modelled from the spec: `SuppliedParams`, opaque to the contract. -/
structure SuppliedParams where
  payload : String
deriving DecidableEq

/-- Modelled from the spec: `SuppliedValueParams`, opaque to the contract. -/
structure SuppliedValueParams where
  payload : String
deriving DecidableEq

/-- Modelled from the spec: `AvailableBorrowParams`, opaque to the contract. -/
structure AvailableBorrowParams where
  payload : String
deriving DecidableEq

/-- Modelled from the spec: `BorrowAPYParams`, opaque to the contract. -/
structure BorrowAPYParams where
  payload : String
deriving DecidableEq

/-- Modelled from the spec: `SupplyAPYParams`, opaque to the contract. -/
structure SupplyAPYParams where
  payload : String
deriving DecidableEq

/-- Modelled from the spec: `MarketSizeParams`, opaque to the contract. -/
structure MarketSizeParams where
  payload : String
deriving DecidableEq

/-- Modelled from the spec: `TokenMarketSizeParams`, opaque to the contract. -/
structure TokenMarketSizeParams where
  payload : String
deriving DecidableEq

/-- Modelled from the spec: `ReserveAmountParams`, opaque to the contract. -/
structure ReserveAmountParams where
  payload : String
deriving DecidableEq

/-- Modelled from the spec: `CollateralParams`, opaque to the contract. -/
structure CollateralParams where
  payload : String
deriving DecidableEq

/-- Modelled from the spec: `CollateralValueParams`, opaque to the contract. -/
structure CollateralValueParams where
  payload : String
deriving DecidableEq

/-- Modelled from the spec: `ExchangeRatesParams` (a denom), opaque to the
contract. -/
structure ExchangeRatesParams where
  payload : String
deriving DecidableEq

/-- `OwnerResponse` (src/src/msg.rs): the current contract owner. -/
structure OwnerResponse where
  owner : Addr
deriving DecidableEq

/-- Modelled from the spec: `BorrowedResponse`, opaque to the contract. -/
structure BorrowedResponse where
  payload : String
deriving DecidableEq

/-- Modelled from the spec: `RegisteredTokensResponse`, opaque to the contract. -/
structure RegisteredTokensResponse where
  payload : String
deriving DecidableEq

/-- Modelled from the spec: `LeverageParametersResponse`, opaque to the contract. -/
structure LeverageParametersResponse where
  payload : String
deriving DecidableEq

/-- Modelled from the spec: `BorrowedValueResponse`, opaque to the contract. -/
structure BorrowedValueResponse where
  payload : String
deriving DecidableEq

/-- Modelled from the spec: `SuppliedResponse`, opaque to the contract. -/
structure SuppliedResponse where
  payload : String
deriving DecidableEq

/-- Modelled from the spec: `SuppliedValueResponse`, opaque to the contract. -/
structure SuppliedValueResponse where
  payload : String
deriving DecidableEq

/-- Modelled from the spec: `AvailableBorrowResponse`, opaque to the contract. -/
structure AvailableBorrowResponse where
  payload : String
deriving DecidableEq

/-- Modelled from the spec: `BorrowAPYResponse`, opaque to the contract. -/
structure BorrowAPYResponse where
  payload : String
deriving DecidableEq

/-- Modelled from the spec: `SupplyAPYResponse`, opaque to the contract. -/
structure SupplyAPYResponse where
  payload : String
deriving DecidableEq

/-- Modelled from the spec: `MarketSizeResponse`, opaque to the contract. -/
structure MarketSizeResponse where
  payload : String
deriving DecidableEq

/-- Modelled from the spec: `TokenMarketSizeResponse`, opaque to the contract. -/
structure TokenMarketSizeResponse where
  payload : String
deriving DecidableEq

/-- Modelled from the spec: `ReserveAmountResponse`, opaque to the contract. -/
structure ReserveAmountResponse where
  payload : String
deriving DecidableEq

/-- Modelled from the spec: `CollateralResponse`, opaque to the contract. -/
structure CollateralResponse where
  payload : String
deriving DecidableEq

/-- Modelled from the spec: `CollateralValueResponse`, opaque to the contract. -/
structure CollateralValueResponse where
  payload : String
deriving DecidableEq

/-- Modelled from the spec: `ExchangeRatesResponse`, opaque to the contract. -/
structure ExchangeRatesResponse where
  payload : String
deriving DecidableEq

/-- Modelled from the spec: `StructUmeeQuery`, the chain's custom query wire
struct.  The contract only ever builds it through one constructor function per
query kind (`StructUmeeQuery::borrowed(..)`, ...), so it is modelled as the
tagged union of those constructors. -/
inductive StructUmeeQuery where
  | borrowed (p : BorrowedParams)
  | registered_tokens (p : RegisteredTokensParams)
  | leverage_parameters (p : LeverageParametersParams)
  | borrowed_value (p : BorrowedValueParams)
  | supplied (p : SuppliedParams)
  | supplied_value (p : SuppliedValueParams)
  | available_borrow (p : AvailableBorrowParams)
  | borrow_apy (p : BorrowAPYParams)
  | supply_apy (p : SupplyAPYParams)
  | market_size (p : MarketSizeParams)
  | token_market_size (p : TokenMarketSizeParams)
  | reserve_amount (p : ReserveAmountParams)
  | collateral (p : CollateralParams)
  | collateral_value (p : CollateralValueParams)
  | exchange_rates (p : ExchangeRatesParams)
deriving DecidableEq

/-- Modelled from the spec: the payload a `StructUmeeMsg` carries, one case
per constructor function the contract uses plus an opaque case for messages
built elsewhere (`ExecuteMsg::Chain` accepts an arbitrary `StructUmeeMsg`). -/
inductive UmeeMsgPayload where
  | lend (p : LendAssetParams)
  | withdraw (p : LendAssetParams)
  | opaquePayload (raw : String)
deriving DecidableEq

/-- Modelled from the spec: `StructUmeeMsg`, the chain's custom message wire
struct.  The contract treats its `valid()` and `assigned_str()` methods as
opaque observations of the message, so they are modelled as fields; the two
constructor functions the contract calls set them the way their names say. -/
structure StructUmeeMsg where
  valid : Bool
  assigned_str : String
  payload : UmeeMsgPayload
deriving DecidableEq

/-- Modelled from the spec: `StructUmeeMsg::lend_asset`, the lend-asset
chain message built from its params. -/
def StructUmeeMsg.lend_asset (p : LendAssetParams) : StructUmeeMsg :=
  { valid := true, assigned_str := "lend_asset", payload := .lend p }

/-- Modelled from the spec: `StructUmeeMsg::withdraw_asset`, the
withdraw-asset chain message built from its params. -/
def StructUmeeMsg.withdraw_asset (p : LendAssetParams) : StructUmeeMsg :=
  { valid := true, assigned_str := "withdraw_asset", payload := .withdraw p }

/-- Modelled from the spec: `UmeeMsgLeverage` as matched by `execute_leverage`
in contract.rs (the msg-side umee-types file is not in the snapshot; the copy
of a later crate revision that is present lists different variants, but
contract.rs matches exactly these two). -/
inductive UmeeMsgLeverage where
  | LendAsset (p : LendAssetParams)
  | WithdrawAsset (p : LendAssetParams)
deriving DecidableEq

/-- Modelled from the spec: `UmeeMsg`, the module wrapper for execute
messages; contract.rs matches only the leverage module. -/
inductive UmeeMsg where
  | Leverage (m : UmeeMsgLeverage)
deriving DecidableEq

/-- Modelled from the spec: `UmeeQueryLeverage` as matched by
`query_leverage` in contract.rs. -/
inductive UmeeQueryLeverage where
  | Borrowed (p : BorrowedParams)
  | RegisteredTokens (p : RegisteredTokensParams)
  | LeverageParameters (p : LeverageParametersParams)
  | BorrowedValue (p : BorrowedValueParams)
  | Supplied (p : SuppliedParams)
  | SuppliedValue (p : SuppliedValueParams)
  | AvailableBorrow (p : AvailableBorrowParams)
  | BorrowAPY (p : BorrowAPYParams)
  | SupplyAPY (p : SupplyAPYParams)
  | MarketSize (p : MarketSizeParams)
  | TokenMarketSize (p : TokenMarketSizeParams)
  | ReserveAmount (p : ReserveAmountParams)
  | Collateral (p : CollateralParams)
  | CollateralValue (p : CollateralValueParams)
deriving DecidableEq

/-- Modelled from the spec: `UmeeQueryOracle` as matched by `query_oracle`
in contract.rs. -/
inductive UmeeQueryOracle where
  | ExchangeRates (p : ExchangeRatesParams)
deriving DecidableEq

/-- Modelled from the spec: `UmeeQuery`, the module wrapper for queries. -/
inductive UmeeQuery where
  | Leverage (q : UmeeQueryLeverage)
  | Oracle (q : UmeeQueryOracle)
deriving DecidableEq

/-- cosmwasm `QueryRequest<StructUmeeQuery>`: the contract builds only the
`Custom` variant; the other native-module variants (bank, staking, stargate,
...) are opaque pass-through data, collapsed into one case. -/
inductive QueryRequest where
  | Custom (q : StructUmeeQuery)
  | Other (raw : String)
deriving DecidableEq

/-- `InstantiateMsg` (src/src/msg.rs): no fields. -/
structure InstantiateMsg where
deriving DecidableEq

/-- Modelled from the spec: `ExecuteMsg` as matched by `execute` in
contract.rs (the copy of msg.rs in the snapshot is an earlier revision that
lists only `ChangeOwner`; contract.rs matches these four variants). -/
inductive ExecuteMsg where
  | ChangeOwner (new_owner : Addr)
  | Chain (m : StructUmeeMsg)
  | Umee (m : UmeeMsg)
  | LendAsset (p : LendAssetParams)
deriving DecidableEq

/-- Modelled from the spec: `QueryMsg` as matched by `query` in contract.rs
(the copy of msg.rs in the snapshot is an earlier revision; contract.rs
matches these eight variants). -/
inductive QueryMsg where
  | GetOwner
  | Chain (request : QueryRequest)
  | Umee (q : UmeeQuery)
  | Borrowed (p : BorrowedParams)
  | ExchangeRates (p : ExchangeRatesParams)
  | RegisteredTokens (p : RegisteredTokensParams)
  | LeverageParameters (p : LeverageParametersParams)
  | BorrowedValue (p : BorrowedValueParams)
deriving DecidableEq

/-- cosmwasm `Binary`: an opaque byte blob.  Every byte blob the contract
decodes either is the serde encoding of a value of one of the response types
(one tagged case per type) or fails to decode as the requested type; `raw`
stands for any other blob. -/
inductive Binary where
  | ofOwner (r : OwnerResponse)
  | ofBorrowed (r : BorrowedResponse)
  | ofRegisteredTokens (r : RegisteredTokensResponse)
  | ofLeverageParameters (r : LeverageParametersResponse)
  | ofBorrowedValue (r : BorrowedValueResponse)
  | ofSupplied (r : SuppliedResponse)
  | ofSuppliedValue (r : SuppliedValueResponse)
  | ofAvailableBorrow (r : AvailableBorrowResponse)
  | ofBorrowAPY (r : BorrowAPYResponse)
  | ofSupplyAPY (r : SupplyAPYResponse)
  | ofMarketSize (r : MarketSizeResponse)
  | ofTokenMarketSize (r : TokenMarketSizeResponse)
  | ofReserveAmount (r : ReserveAmountResponse)
  | ofCollateral (r : CollateralResponse)
  | ofCollateralValue (r : CollateralValueResponse)
  | ofExchangeRates (r : ExchangeRatesResponse)
  | raw (bytes : String)
deriving DecidableEq

/-- cosmwasm serde: `to_binary` JSON-encodes a value, `from_binary` decodes a
blob as a value of the requested type or fails with a parse error. -/
class Serde (α : Type) where
  to_binary : α → Binary
  from_binary : Binary → Except StdError α

open Serde

instance : Serde OwnerResponse where
  to_binary := .ofOwner
  from_binary b := match b with
    | .ofOwner r => .ok r
    | _ => .error (.parse_err "OwnerResponse" "invalid type")

instance : Serde BorrowedResponse where
  to_binary := .ofBorrowed
  from_binary b := match b with
    | .ofBorrowed r => .ok r
    | _ => .error (.parse_err "BorrowedResponse" "invalid type")

instance : Serde RegisteredTokensResponse where
  to_binary := .ofRegisteredTokens
  from_binary b := match b with
    | .ofRegisteredTokens r => .ok r
    | _ => .error (.parse_err "RegisteredTokensResponse" "invalid type")

instance : Serde LeverageParametersResponse where
  to_binary := .ofLeverageParameters
  from_binary b := match b with
    | .ofLeverageParameters r => .ok r
    | _ => .error (.parse_err "LeverageParametersResponse" "invalid type")

instance : Serde BorrowedValueResponse where
  to_binary := .ofBorrowedValue
  from_binary b := match b with
    | .ofBorrowedValue r => .ok r
    | _ => .error (.parse_err "BorrowedValueResponse" "invalid type")

instance : Serde SuppliedResponse where
  to_binary := .ofSupplied
  from_binary b := match b with
    | .ofSupplied r => .ok r
    | _ => .error (.parse_err "SuppliedResponse" "invalid type")

instance : Serde SuppliedValueResponse where
  to_binary := .ofSuppliedValue
  from_binary b := match b with
    | .ofSuppliedValue r => .ok r
    | _ => .error (.parse_err "SuppliedValueResponse" "invalid type")

instance : Serde AvailableBorrowResponse where
  to_binary := .ofAvailableBorrow
  from_binary b := match b with
    | .ofAvailableBorrow r => .ok r
    | _ => .error (.parse_err "AvailableBorrowResponse" "invalid type")

instance : Serde BorrowAPYResponse where
  to_binary := .ofBorrowAPY
  from_binary b := match b with
    | .ofBorrowAPY r => .ok r
    | _ => .error (.parse_err "BorrowAPYResponse" "invalid type")

instance : Serde SupplyAPYResponse where
  to_binary := .ofSupplyAPY
  from_binary b := match b with
    | .ofSupplyAPY r => .ok r
    | _ => .error (.parse_err "SupplyAPYResponse" "invalid type")

instance : Serde MarketSizeResponse where
  to_binary := .ofMarketSize
  from_binary b := match b with
    | .ofMarketSize r => .ok r
    | _ => .error (.parse_err "MarketSizeResponse" "invalid type")

instance : Serde TokenMarketSizeResponse where
  to_binary := .ofTokenMarketSize
  from_binary b := match b with
    | .ofTokenMarketSize r => .ok r
    | _ => .error (.parse_err "TokenMarketSizeResponse" "invalid type")

instance : Serde ReserveAmountResponse where
  to_binary := .ofReserveAmount
  from_binary b := match b with
    | .ofReserveAmount r => .ok r
    | _ => .error (.parse_err "ReserveAmountResponse" "invalid type")

instance : Serde CollateralResponse where
  to_binary := .ofCollateral
  from_binary b := match b with
    | .ofCollateral r => .ok r
    | _ => .error (.parse_err "CollateralResponse" "invalid type")

instance : Serde CollateralValueResponse where
  to_binary := .ofCollateralValue
  from_binary b := match b with
    | .ofCollateralValue r => .ok r
    | _ => .error (.parse_err "CollateralValueResponse" "invalid type")

instance : Serde ExchangeRatesResponse where
  to_binary := .ofExchangeRates
  from_binary b := match b with
    | .ofExchangeRates r => .ok r
    | _ => .error (.parse_err "ExchangeRatesResponse" "invalid type")

/-- cosmwasm `SystemResult`: what the host returns from a raw query; the
`SystemError` payload is abstracted to its display string, which is all the
contract uses of it. -/
inductive SystemResult (α : Type) where
  | Ok (value : α)
  | Err (system_err : String)
deriving DecidableEq

/-- cosmwasm `ContractResult`: the queried contract/module's own result; the
error payload is its display string. -/
inductive ContractResult (α : Type) where
  | Ok (value : α)
  | Err (contract_err : String)
deriving DecidableEq

/-- The chain host as seen through `deps.querier.raw_query`.  `to_vec`
serialization of a `QueryRequest` is modelled as the identity injection (serde
encoding of these plain data types cannot fail and is injective), so the
querier consumes the request itself. -/
abbrev Querier := QueryRequest → SystemResult (ContractResult Binary)

/-- cosmwasm `Deps`: read access to storage plus the querier. -/
structure Deps where
  storage : Storage
  querier : Querier

/-- cosmwasm `Attribute`: one key/value pair of a response. -/
structure Attribute where
  key : String
  value : String
deriving DecidableEq

/-- cosmwasm `Response<M>`: the messages and attributes a handler returns
(`add_message` wraps in a fire-and-forget `SubMsg`, modelled as the message
itself; the events/data fields are never used by this contract). -/
structure Response (M : Type) where
  messages : List M
  attributes : List Attribute
deriving DecidableEq

/-- cosmwasm `Response::new()`. -/
def Response.new {M : Type} : Response M := { messages := [], attributes := [] }

/-- cosmwasm `Response::add_attribute`. -/
def Response.add_attribute {M : Type} (r : Response M) (k v : String) : Response M :=
  { r with attributes := r.attributes ++ [{ key := k, value := v }] }

/-- cosmwasm `Response::add_message`. -/
def Response.add_message {M : Type} (r : Response M) (m : M) : Response M :=
  { r with messages := r.messages ++ [m] }

/-- cw-storage-plus `Item::load` for `STATE`: the stored state, or a
not-found error when nothing was saved. -/
def Item_load (storage : Storage) : Except StdError State :=
  match storage with
  | none => .error (.not_found "State")
  | some state => .ok state

/-- cw-storage-plus `Item::update` for `STATE`: load the stored state, apply
the action, save and return the result; a load failure is converted into
`ContractError::Std` the way `?` does in `try_change_owner`. -/
def Item_update (storage : Storage)
    (action : State → Except ContractError State) : Except ContractError Storage :=
  match storage with
  | none => .error (.Std (.not_found "State"))
  | some input =>
      match action input with
      | .error e => .error e
      | .ok output => .ok (some output)

/-- contract.rs `instantiate`: saves the sender as owner and answers with the
method and owner attributes.  `set_contract_version` writes the crate
name/version under a separate storage key that no handler reads, so only the
`STATE` save is visible in `Storage`. -/
def instantiate (_storage : Storage) (_env : Env) (info : MessageInfo)
    (_msg : InstantiateMsg) : Except ContractError (Response Empty × Storage) :=
  let state : State := { owner := info.sender }
  .ok
    ((Response.new.add_attribute "method" "instantiate").add_attribute "owner" info.sender,
      some state)

/-- contract.rs `try_change_owner`: updates the stored owner through
`STATE.update`, failing as `Unauthorized` when the caller is not the stored
owner. -/
def try_change_owner (storage : Storage) (info : MessageInfo) (new_owner : Addr) :
    Except ContractError (Response StructUmeeMsg × Storage) :=
  match Item_update storage (fun state =>
      if info.sender ≠ state.owner then
        .error .Unauthorized
      else
        .ok { state with owner := new_owner }) with
  | .error e => .error e
  | .ok storage1 => .ok (Response.new.add_attribute "method" "change_owner", storage1)

/-- contract.rs `msg_chain`: rejects an invalid `StructUmeeMsg` with the
custom error, otherwise answers with the message and its assigned method
attribute. -/
def msg_chain (umee_msg : StructUmeeMsg) : Except ContractError (Response StructUmeeMsg) :=
  if !umee_msg.valid then
    .error (.CustomError "invalid umee msg")
  else
    .ok ((Response.new.add_attribute "method" umee_msg.assigned_str).add_message umee_msg)

/-- contract.rs `execute_lend`: the lend-asset chain message with the
"lend_asset" method attribute. -/
def execute_lend (lend_asset_params : LendAssetParams) :
    Except ContractError (Response StructUmeeMsg) :=
  .ok
    ((Response.new.add_attribute "method" "lend_asset").add_message
      (StructUmeeMsg.lend_asset lend_asset_params))

/-- contract.rs `execute_withdraw`: the withdraw-asset chain message; the
method attribute it adds is the literal "lend_asset" (contract.rs line 129). -/
def execute_withdraw (withdraw_asset_params : LendAssetParams) :
    Except ContractError (Response StructUmeeMsg) :=
  .ok
    ((Response.new.add_attribute "method" "lend_asset").add_message
      (StructUmeeMsg.withdraw_asset withdraw_asset_params))

/-- contract.rs `execute_leverage`: dispatches a leverage execute message to
its handler. -/
def execute_leverage (execute_leverage_msg : UmeeMsgLeverage) :
    Except ContractError (Response StructUmeeMsg) :=
  match execute_leverage_msg with
  | .LendAsset lend_asset_params => execute_lend lend_asset_params
  | .WithdrawAsset withdraw_asset_params => execute_withdraw withdraw_asset_params

/-- contract.rs `execute`: the execute entry point.  The handlers other than
`try_change_owner` never receive the mutable deps, so storage passes through
them unchanged. -/
def execute (storage : Storage) (_env : Env) (info : MessageInfo) (msg : ExecuteMsg) :
    Except ContractError (Response StructUmeeMsg × Storage) :=
  match msg with
  | .ChangeOwner new_owner => try_change_owner storage info new_owner
  | .Chain cosmos_umee_msg =>
      match msg_chain cosmos_umee_msg with
      | .error e => .error e
      | .ok r => .ok (r, storage)
  | .Umee (.Leverage execute_leverage_msg) =>
      match execute_leverage execute_leverage_msg with
      | .error e => .error e
      | .ok r => .ok (r, storage)
  | .LendAsset lend_asset_params =>
      match execute_lend lend_asset_params with
      | .error e => .error e
      | .ok r => .ok (r, storage)

/-- contract.rs `query_owner`: loads the state and wraps its owner. -/
def query_owner (deps : Deps) : Except StdError OwnerResponse :=
  match Item_load deps.storage with
  | .error e => .error e
  | .ok state => .ok { owner := state.owner }

/-- contract.rs `query_chain`: forwards a raw query request to the host and
maps the two failure shapes to generic errors.  The serialization step
(`to_vec`) is modelled as the identity injection, see `Querier`. -/
def query_chain (deps : Deps) (request : QueryRequest) : Except StdError Binary :=
  match deps.querier request with
  | .Err system_err =>
      .error (.generic_err ("Querier system error: " ++ system_err))
  | .Ok (.Err contract_err) =>
      .error (.generic_err ("Querier contract error: " ++ contract_err))
  | .Ok (.Ok value) => .ok value

/-- contract.rs `query_borrowed`: wrap the params into the custom borrowed
query, call the host through `query_chain`, decode the response. -/
def query_borrowed (deps : Deps) (borrowed_params : BorrowedParams) :
    Except StdError BorrowedResponse :=
  let request := QueryRequest.Custom (StructUmeeQuery.borrowed borrowed_params)
  match query_chain deps request with
  | .error err => .error err
  | .ok binary =>
      match (from_binary binary : Except StdError BorrowedResponse) with
      | .error err => .error err
      | .ok response => .ok response

/-- contract.rs `query_registered_tokens`: same pattern for the
registered-tokens query. -/
def query_registered_tokens (deps : Deps)
    (registered_tokens_params : RegisteredTokensParams) :
    Except StdError RegisteredTokensResponse :=
  let request := QueryRequest.Custom
    (StructUmeeQuery.registered_tokens registered_tokens_params)
  match query_chain deps request with
  | .error err => .error err
  | .ok binary =>
      match (from_binary binary : Except StdError RegisteredTokensResponse) with
      | .error err => .error err
      | .ok response => .ok response

/-- contract.rs `query_leverage_parameters`: same pattern for the
leverage-parameters query. -/
def query_leverage_parameters (deps : Deps)
    (leverage_parameters_params : LeverageParametersParams) :
    Except StdError LeverageParametersResponse :=
  let request := QueryRequest.Custom
    (StructUmeeQuery.leverage_parameters leverage_parameters_params)
  match query_chain deps request with
  | .error err => .error err
  | .ok binary =>
      match (from_binary binary : Except StdError LeverageParametersResponse) with
      | .error err => .error err
      | .ok response => .ok response

/-- contract.rs `query_borrowed_value`: same pattern for the borrowed-value
query. -/
def query_borrowed_value (deps : Deps)
    (borrowed_value_params : BorrowedValueParams) :
    Except StdError BorrowedValueResponse :=
  let request := QueryRequest.Custom
    (StructUmeeQuery.borrowed_value borrowed_value_params)
  match query_chain deps request with
  | .error err => .error err
  | .ok binary =>
      match (from_binary binary : Except StdError BorrowedValueResponse) with
      | .error err => .error err
      | .ok response => .ok response

/-- contract.rs `query_supplied`: same pattern for the supplied query. -/
def query_supplied (deps : Deps) (supplied_params : SuppliedParams) :
    Except StdError SuppliedResponse :=
  let request := QueryRequest.Custom (StructUmeeQuery.supplied supplied_params)
  match query_chain deps request with
  | .error err => .error err
  | .ok binary =>
      match (from_binary binary : Except StdError SuppliedResponse) with
      | .error err => .error err
      | .ok response => .ok response

/-- contract.rs `query_supplied_value`: same pattern for the supplied-value
query. -/
def query_supplied_value (deps : Deps)
    (supplied_value_params : SuppliedValueParams) :
    Except StdError SuppliedValueResponse :=
  let request := QueryRequest.Custom
    (StructUmeeQuery.supplied_value supplied_value_params)
  match query_chain deps request with
  | .error err => .error err
  | .ok binary =>
      match (from_binary binary : Except StdError SuppliedValueResponse) with
      | .error err => .error err
      | .ok response => .ok response

/-- contract.rs `query_available_borrow`: same pattern for the
available-borrow query. -/
def query_available_borrow (deps : Deps)
    (available_borrow_params : AvailableBorrowParams) :
    Except StdError AvailableBorrowResponse :=
  let request := QueryRequest.Custom
    (StructUmeeQuery.available_borrow available_borrow_params)
  match query_chain deps request with
  | .error err => .error err
  | .ok binary =>
      match (from_binary binary : Except StdError AvailableBorrowResponse) with
      | .error err => .error err
      | .ok response => .ok response

/-- contract.rs `query_borrow_apy`: same pattern for the borrow-APY query. -/
def query_borrow_apy (deps : Deps) (borrow_apy_params : BorrowAPYParams) :
    Except StdError BorrowAPYResponse :=
  let request := QueryRequest.Custom (StructUmeeQuery.borrow_apy borrow_apy_params)
  match query_chain deps request with
  | .error err => .error err
  | .ok binary =>
      match (from_binary binary : Except StdError BorrowAPYResponse) with
      | .error err => .error err
      | .ok response => .ok response

/-- contract.rs `query_supply_apy`: same pattern for the supply-APY query. -/
def query_supply_apy (deps : Deps) (supply_apy_params : SupplyAPYParams) :
    Except StdError SupplyAPYResponse :=
  let request := QueryRequest.Custom (StructUmeeQuery.supply_apy supply_apy_params)
  match query_chain deps request with
  | .error err => .error err
  | .ok binary =>
      match (from_binary binary : Except StdError SupplyAPYResponse) with
      | .error err => .error err
      | .ok response => .ok response

/-- contract.rs `query_market_size`: same pattern for the market-size query. -/
def query_market_size (deps : Deps) (market_size_params : MarketSizeParams) :
    Except StdError MarketSizeResponse :=
  let request := QueryRequest.Custom (StructUmeeQuery.market_size market_size_params)
  match query_chain deps request with
  | .error err => .error err
  | .ok binary =>
      match (from_binary binary : Except StdError MarketSizeResponse) with
      | .error err => .error err
      | .ok response => .ok response

/-- contract.rs `query_token_market_size`: same pattern for the
token-market-size query. -/
def query_token_market_size (deps : Deps)
    (token_market_size_params : TokenMarketSizeParams) :
    Except StdError TokenMarketSizeResponse :=
  let request := QueryRequest.Custom
    (StructUmeeQuery.token_market_size token_market_size_params)
  match query_chain deps request with
  | .error err => .error err
  | .ok binary =>
      match (from_binary binary : Except StdError TokenMarketSizeResponse) with
      | .error err => .error err
      | .ok response => .ok response

/-- contract.rs `query_reserve_amount`: same pattern for the reserve-amount
query. -/
def query_reserve_amount (deps : Deps)
    (reserve_amount_params : ReserveAmountParams) :
    Except StdError ReserveAmountResponse :=
  let request := QueryRequest.Custom
    (StructUmeeQuery.reserve_amount reserve_amount_params)
  match query_chain deps request with
  | .error err => .error err
  | .ok binary =>
      match (from_binary binary : Except StdError ReserveAmountResponse) with
      | .error err => .error err
      | .ok response => .ok response

/-- contract.rs `query_collateral`: same pattern for the collateral query. -/
def query_collateral (deps : Deps) (collateral_params : CollateralParams) :
    Except StdError CollateralResponse :=
  let request := QueryRequest.Custom (StructUmeeQuery.collateral collateral_params)
  match query_chain deps request with
  | .error err => .error err
  | .ok binary =>
      match (from_binary binary : Except StdError CollateralResponse) with
      | .error err => .error err
      | .ok response => .ok response

/-- contract.rs `query_collateral_value`: same pattern for the
collateral-value query. -/
def query_collateral_value (deps : Deps)
    (collateral_value_params : CollateralValueParams) :
    Except StdError CollateralValueResponse :=
  let request := QueryRequest.Custom
    (StructUmeeQuery.collateral_value collateral_value_params)
  match query_chain deps request with
  | .error err => .error err
  | .ok binary =>
      match (from_binary binary : Except StdError CollateralValueResponse) with
      | .error err => .error err
      | .ok response => .ok response

/-- contract.rs `query_exchange_rates`: same pattern for the exchange-rates
oracle query. -/
def query_exchange_rates (deps : Deps)
    (exchange_rates_params : ExchangeRatesParams) :
    Except StdError ExchangeRatesResponse :=
  let request := QueryRequest.Custom
    (StructUmeeQuery.exchange_rates exchange_rates_params)
  match query_chain deps request with
  | .error err => .error err
  | .ok binary =>
      match (from_binary binary : Except StdError ExchangeRatesResponse) with
      | .error err => .error err
      | .ok response => .ok response

/-- contract.rs `query_leverage`: dispatches a leverage query to its handler
and JSON-encodes the decoded response (`to_binary(&handler(..)?)`). -/
def query_leverage (deps : Deps) (_env : Env) (msg : UmeeQueryLeverage) :
    Except StdError Binary :=
  match msg with
  | .Borrowed borrowed_params =>
      match query_borrowed deps borrowed_params with
      | .error e => .error e
      | .ok r => .ok (to_binary r)
  | .RegisteredTokens registered_tokens_params =>
      match query_registered_tokens deps registered_tokens_params with
      | .error e => .error e
      | .ok r => .ok (to_binary r)
  | .LeverageParameters leverage_parameters_params =>
      match query_leverage_parameters deps leverage_parameters_params with
      | .error e => .error e
      | .ok r => .ok (to_binary r)
  | .BorrowedValue borrowed_params =>
      match query_borrowed_value deps borrowed_params with
      | .error e => .error e
      | .ok r => .ok (to_binary r)
  | .Supplied supplied_params =>
      match query_supplied deps supplied_params with
      | .error e => .error e
      | .ok r => .ok (to_binary r)
  | .SuppliedValue supplied_value_params =>
      match query_supplied_value deps supplied_value_params with
      | .error e => .error e
      | .ok r => .ok (to_binary r)
  | .AvailableBorrow available_borrow_params =>
      match query_available_borrow deps available_borrow_params with
      | .error e => .error e
      | .ok r => .ok (to_binary r)
  | .BorrowAPY borrow_apy_params =>
      match query_borrow_apy deps borrow_apy_params with
      | .error e => .error e
      | .ok r => .ok (to_binary r)
  | .SupplyAPY supply_apy_params =>
      match query_supply_apy deps supply_apy_params with
      | .error e => .error e
      | .ok r => .ok (to_binary r)
  | .MarketSize market_size_params =>
      match query_market_size deps market_size_params with
      | .error e => .error e
      | .ok r => .ok (to_binary r)
  | .TokenMarketSize token_market_size_params =>
      match query_token_market_size deps token_market_size_params with
      | .error e => .error e
      | .ok r => .ok (to_binary r)
  | .ReserveAmount reserve_amount_params =>
      match query_reserve_amount deps reserve_amount_params with
      | .error e => .error e
      | .ok r => .ok (to_binary r)
  | .Collateral collateral_params =>
      match query_collateral deps collateral_params with
      | .error e => .error e
      | .ok r => .ok (to_binary r)
  | .CollateralValue collateral_value_params =>
      match query_collateral_value deps collateral_value_params with
      | .error e => .error e
      | .ok r => .ok (to_binary r)

/-- contract.rs `query_oracle`: dispatches an oracle query to its handler
and JSON-encodes the decoded response. -/
def query_oracle (deps : Deps) (_env : Env) (msg : UmeeQueryOracle) :
    Except StdError Binary :=
  match msg with
  | .ExchangeRates exchange_rates_params =>
      match query_exchange_rates deps exchange_rates_params with
      | .error e => .error e
      | .ok r => .ok (to_binary r)

/-- contract.rs `query`: the query entry point. -/
def query (deps : Deps) (env : Env) (msg : QueryMsg) : Except StdError Binary :=
  match msg with
  | .GetOwner =>
      match query_owner deps with
      | .error e => .error e
      | .ok r => .ok (to_binary r)
  | .Chain request => query_chain deps request
  | .Umee (.Leverage leverage) => query_leverage deps env leverage
  | .Umee (.Oracle oracle) => query_oracle deps env oracle
  | .Borrowed borrowed_params =>
      match query_borrowed deps borrowed_params with
      | .error e => .error e
      | .ok r => .ok (to_binary r)
  | .ExchangeRates exchange_rates_params =>
      match query_exchange_rates deps exchange_rates_params with
      | .error e => .error e
      | .ok r => .ok (to_binary r)
  | .RegisteredTokens registered_tokens_params =>
      match query_registered_tokens deps registered_tokens_params with
      | .error e => .error e
      | .ok r => .ok (to_binary r)
  | .LeverageParameters leverage_parameters_params =>
      match query_leverage_parameters deps leverage_parameters_params with
      | .error e => .error e
      | .ok r => .ok (to_binary r)
  | .BorrowedValue borrowed_value_params =>
      match query_borrowed_value deps borrowed_value_params with
      | .error e => .error e
      | .ok r => .ok (to_binary r)

/-- Pass-through behaviour of one typed query handler against the host: it
answers `ok r` exactly when the host answers a blob that decodes to `r`, and
it surfaces host system errors, host contract errors and decode failures as
errors. -/
def Forwards {α : Type} (q : Querier) (req : QueryRequest)
    (fb : Binary → Except StdError α) (result : Except StdError α) : Prop :=
  (∀ r, result = .ok r ↔ ∃ b, q req = .Ok (.Ok b) ∧ fb b = .ok r) ∧
  (∀ e, q req = .Err e → ∃ s, result = .error (.generic_err s)) ∧
  (∀ e, q req = .Ok (.Err e) → ∃ s, result = .error (.generic_err s)) ∧
  (∀ b e, q req = .Ok (.Ok b) → fb b = .error e → result = .error e)

/-- The query_chain-then-decode pattern, written as one match over the host
answer, forwards. -/
theorem forwards_match {α : Type} (q : Querier) (req : QueryRequest)
    (fb : Binary → Except StdError α) :
    Forwards q req fb
      (match q req with
       | .Err e => .error (.generic_err ("Querier system error: " ++ e))
       | .Ok (.Err e) => .error (.generic_err ("Querier contract error: " ++ e))
       | .Ok (.Ok b) => fb b) := by
  refine ⟨?_, ?_, ?_, ?_⟩
  · intro r
    rcases hq : q req with cr | e
    · rcases cr with b | e
      · simp [hq]
      · simp [hq]
    · simp [hq]
  · intro e hq
    refine ⟨"Querier system error: " ++ e, ?_⟩
    simp [hq]
  · intro e hq
    refine ⟨"Querier contract error: " ++ e, ?_⟩
    simp [hq]
  · intro b e hq hfb
    simp [hq, hfb]

/-- Pass-through behaviour of `query_borrowed`: the handler result decodes the host
answer exactly when the host succeeds with a blob of the declared type, and
every failure is surfaced as an error. -/
theorem forwards_borrowed (q : Querier) (st : Storage) (p : BorrowedParams) :
    Forwards q (.Custom (.borrowed p)) (from_binary (α := BorrowedResponse))
      (query_borrowed { storage := st, querier := q } p) := by
  have h : query_borrowed { storage := st, querier := q } p =
      match q (.Custom (.borrowed p)) with
      | .Err e => .error (.generic_err ("Querier system error: " ++ e))
      | .Ok (.Err e) => .error (.generic_err ("Querier contract error: " ++ e))
      | .Ok (.Ok b) => from_binary b := by
    unfold query_borrowed query_chain
    rcases hq : q (QueryRequest.Custom (StructUmeeQuery.borrowed p)) with cr | e
    · rcases cr with b | e
      · simp only [hq]
        cases hfb : (from_binary b : Except StdError BorrowedResponse) <;> simp only [hfb]
      · simp only [hq]
    · simp only [hq]
  rw [h]
  exact forwards_match q (.Custom (.borrowed p)) from_binary

/-- Pass-through behaviour of `query_registered_tokens`: the handler result decodes the host
answer exactly when the host succeeds with a blob of the declared type, and
every failure is surfaced as an error. -/
theorem forwards_registered_tokens (q : Querier) (st : Storage) (p : RegisteredTokensParams) :
    Forwards q (.Custom (.registered_tokens p)) (from_binary (α := RegisteredTokensResponse))
      (query_registered_tokens { storage := st, querier := q } p) := by
  have h : query_registered_tokens { storage := st, querier := q } p =
      match q (.Custom (.registered_tokens p)) with
      | .Err e => .error (.generic_err ("Querier system error: " ++ e))
      | .Ok (.Err e) => .error (.generic_err ("Querier contract error: " ++ e))
      | .Ok (.Ok b) => from_binary b := by
    unfold query_registered_tokens query_chain
    rcases hq : q (QueryRequest.Custom (StructUmeeQuery.registered_tokens p)) with cr | e
    · rcases cr with b | e
      · simp only [hq]
        cases hfb : (from_binary b : Except StdError RegisteredTokensResponse) <;> simp only [hfb]
      · simp only [hq]
    · simp only [hq]
  rw [h]
  exact forwards_match q (.Custom (.registered_tokens p)) from_binary

/-- Pass-through behaviour of `query_leverage_parameters`: the handler result decodes the host
answer exactly when the host succeeds with a blob of the declared type, and
every failure is surfaced as an error. -/
theorem forwards_leverage_parameters (q : Querier) (st : Storage) (p : LeverageParametersParams) :
    Forwards q (.Custom (.leverage_parameters p)) (from_binary (α := LeverageParametersResponse))
      (query_leverage_parameters { storage := st, querier := q } p) := by
  have h : query_leverage_parameters { storage := st, querier := q } p =
      match q (.Custom (.leverage_parameters p)) with
      | .Err e => .error (.generic_err ("Querier system error: " ++ e))
      | .Ok (.Err e) => .error (.generic_err ("Querier contract error: " ++ e))
      | .Ok (.Ok b) => from_binary b := by
    unfold query_leverage_parameters query_chain
    rcases hq : q (QueryRequest.Custom (StructUmeeQuery.leverage_parameters p)) with cr | e
    · rcases cr with b | e
      · simp only [hq]
        cases hfb : (from_binary b : Except StdError LeverageParametersResponse) <;> simp only [hfb]
      · simp only [hq]
    · simp only [hq]
  rw [h]
  exact forwards_match q (.Custom (.leverage_parameters p)) from_binary

/-- Pass-through behaviour of `query_borrowed_value`: the handler result decodes the host
answer exactly when the host succeeds with a blob of the declared type, and
every failure is surfaced as an error. -/
theorem forwards_borrowed_value (q : Querier) (st : Storage) (p : BorrowedValueParams) :
    Forwards q (.Custom (.borrowed_value p)) (from_binary (α := BorrowedValueResponse))
      (query_borrowed_value { storage := st, querier := q } p) := by
  have h : query_borrowed_value { storage := st, querier := q } p =
      match q (.Custom (.borrowed_value p)) with
      | .Err e => .error (.generic_err ("Querier system error: " ++ e))
      | .Ok (.Err e) => .error (.generic_err ("Querier contract error: " ++ e))
      | .Ok (.Ok b) => from_binary b := by
    unfold query_borrowed_value query_chain
    rcases hq : q (QueryRequest.Custom (StructUmeeQuery.borrowed_value p)) with cr | e
    · rcases cr with b | e
      · simp only [hq]
        cases hfb : (from_binary b : Except StdError BorrowedValueResponse) <;> simp only [hfb]
      · simp only [hq]
    · simp only [hq]
  rw [h]
  exact forwards_match q (.Custom (.borrowed_value p)) from_binary

/-- Pass-through behaviour of `query_supplied`: the handler result decodes the host
answer exactly when the host succeeds with a blob of the declared type, and
every failure is surfaced as an error. -/
theorem forwards_supplied (q : Querier) (st : Storage) (p : SuppliedParams) :
    Forwards q (.Custom (.supplied p)) (from_binary (α := SuppliedResponse))
      (query_supplied { storage := st, querier := q } p) := by
  have h : query_supplied { storage := st, querier := q } p =
      match q (.Custom (.supplied p)) with
      | .Err e => .error (.generic_err ("Querier system error: " ++ e))
      | .Ok (.Err e) => .error (.generic_err ("Querier contract error: " ++ e))
      | .Ok (.Ok b) => from_binary b := by
    unfold query_supplied query_chain
    rcases hq : q (QueryRequest.Custom (StructUmeeQuery.supplied p)) with cr | e
    · rcases cr with b | e
      · simp only [hq]
        cases hfb : (from_binary b : Except StdError SuppliedResponse) <;> simp only [hfb]
      · simp only [hq]
    · simp only [hq]
  rw [h]
  exact forwards_match q (.Custom (.supplied p)) from_binary

/-- Pass-through behaviour of `query_supplied_value`: the handler result decodes the host
answer exactly when the host succeeds with a blob of the declared type, and
every failure is surfaced as an error. -/
theorem forwards_supplied_value (q : Querier) (st : Storage) (p : SuppliedValueParams) :
    Forwards q (.Custom (.supplied_value p)) (from_binary (α := SuppliedValueResponse))
      (query_supplied_value { storage := st, querier := q } p) := by
  have h : query_supplied_value { storage := st, querier := q } p =
      match q (.Custom (.supplied_value p)) with
      | .Err e => .error (.generic_err ("Querier system error: " ++ e))
      | .Ok (.Err e) => .error (.generic_err ("Querier contract error: " ++ e))
      | .Ok (.Ok b) => from_binary b := by
    unfold query_supplied_value query_chain
    rcases hq : q (QueryRequest.Custom (StructUmeeQuery.supplied_value p)) with cr | e
    · rcases cr with b | e
      · simp only [hq]
        cases hfb : (from_binary b : Except StdError SuppliedValueResponse) <;> simp only [hfb]
      · simp only [hq]
    · simp only [hq]
  rw [h]
  exact forwards_match q (.Custom (.supplied_value p)) from_binary

/-- Pass-through behaviour of `query_available_borrow`: the handler result decodes the host
answer exactly when the host succeeds with a blob of the declared type, and
every failure is surfaced as an error. -/
theorem forwards_available_borrow (q : Querier) (st : Storage) (p : AvailableBorrowParams) :
    Forwards q (.Custom (.available_borrow p)) (from_binary (α := AvailableBorrowResponse))
      (query_available_borrow { storage := st, querier := q } p) := by
  have h : query_available_borrow { storage := st, querier := q } p =
      match q (.Custom (.available_borrow p)) with
      | .Err e => .error (.generic_err ("Querier system error: " ++ e))
      | .Ok (.Err e) => .error (.generic_err ("Querier contract error: " ++ e))
      | .Ok (.Ok b) => from_binary b := by
    unfold query_available_borrow query_chain
    rcases hq : q (QueryRequest.Custom (StructUmeeQuery.available_borrow p)) with cr | e
    · rcases cr with b | e
      · simp only [hq]
        cases hfb : (from_binary b : Except StdError AvailableBorrowResponse) <;> simp only [hfb]
      · simp only [hq]
    · simp only [hq]
  rw [h]
  exact forwards_match q (.Custom (.available_borrow p)) from_binary

/-- Pass-through behaviour of `query_borrow_apy`: the handler result decodes the host
answer exactly when the host succeeds with a blob of the declared type, and
every failure is surfaced as an error. -/
theorem forwards_borrow_apy (q : Querier) (st : Storage) (p : BorrowAPYParams) :
    Forwards q (.Custom (.borrow_apy p)) (from_binary (α := BorrowAPYResponse))
      (query_borrow_apy { storage := st, querier := q } p) := by
  have h : query_borrow_apy { storage := st, querier := q } p =
      match q (.Custom (.borrow_apy p)) with
      | .Err e => .error (.generic_err ("Querier system error: " ++ e))
      | .Ok (.Err e) => .error (.generic_err ("Querier contract error: " ++ e))
      | .Ok (.Ok b) => from_binary b := by
    unfold query_borrow_apy query_chain
    rcases hq : q (QueryRequest.Custom (StructUmeeQuery.borrow_apy p)) with cr | e
    · rcases cr with b | e
      · simp only [hq]
        cases hfb : (from_binary b : Except StdError BorrowAPYResponse) <;> simp only [hfb]
      · simp only [hq]
    · simp only [hq]
  rw [h]
  exact forwards_match q (.Custom (.borrow_apy p)) from_binary

/-- Pass-through behaviour of `query_supply_apy`: the handler result decodes the host
answer exactly when the host succeeds with a blob of the declared type, and
every failure is surfaced as an error. -/
theorem forwards_supply_apy (q : Querier) (st : Storage) (p : SupplyAPYParams) :
    Forwards q (.Custom (.supply_apy p)) (from_binary (α := SupplyAPYResponse))
      (query_supply_apy { storage := st, querier := q } p) := by
  have h : query_supply_apy { storage := st, querier := q } p =
      match q (.Custom (.supply_apy p)) with
      | .Err e => .error (.generic_err ("Querier system error: " ++ e))
      | .Ok (.Err e) => .error (.generic_err ("Querier contract error: " ++ e))
      | .Ok (.Ok b) => from_binary b := by
    unfold query_supply_apy query_chain
    rcases hq : q (QueryRequest.Custom (StructUmeeQuery.supply_apy p)) with cr | e
    · rcases cr with b | e
      · simp only [hq]
        cases hfb : (from_binary b : Except StdError SupplyAPYResponse) <;> simp only [hfb]
      · simp only [hq]
    · simp only [hq]
  rw [h]
  exact forwards_match q (.Custom (.supply_apy p)) from_binary

/-- Pass-through behaviour of `query_market_size`: the handler result decodes the host
answer exactly when the host succeeds with a blob of the declared type, and
every failure is surfaced as an error. -/
theorem forwards_market_size (q : Querier) (st : Storage) (p : MarketSizeParams) :
    Forwards q (.Custom (.market_size p)) (from_binary (α := MarketSizeResponse))
      (query_market_size { storage := st, querier := q } p) := by
  have h : query_market_size { storage := st, querier := q } p =
      match q (.Custom (.market_size p)) with
      | .Err e => .error (.generic_err ("Querier system error: " ++ e))
      | .Ok (.Err e) => .error (.generic_err ("Querier contract error: " ++ e))
      | .Ok (.Ok b) => from_binary b := by
    unfold query_market_size query_chain
    rcases hq : q (QueryRequest.Custom (StructUmeeQuery.market_size p)) with cr | e
    · rcases cr with b | e
      · simp only [hq]
        cases hfb : (from_binary b : Except StdError MarketSizeResponse) <;> simp only [hfb]
      · simp only [hq]
    · simp only [hq]
  rw [h]
  exact forwards_match q (.Custom (.market_size p)) from_binary

/-- Pass-through behaviour of `query_token_market_size`: the handler result decodes the host
answer exactly when the host succeeds with a blob of the declared type, and
every failure is surfaced as an error. -/
theorem forwards_token_market_size (q : Querier) (st : Storage) (p : TokenMarketSizeParams) :
    Forwards q (.Custom (.token_market_size p)) (from_binary (α := TokenMarketSizeResponse))
      (query_token_market_size { storage := st, querier := q } p) := by
  have h : query_token_market_size { storage := st, querier := q } p =
      match q (.Custom (.token_market_size p)) with
      | .Err e => .error (.generic_err ("Querier system error: " ++ e))
      | .Ok (.Err e) => .error (.generic_err ("Querier contract error: " ++ e))
      | .Ok (.Ok b) => from_binary b := by
    unfold query_token_market_size query_chain
    rcases hq : q (QueryRequest.Custom (StructUmeeQuery.token_market_size p)) with cr | e
    · rcases cr with b | e
      · simp only [hq]
        cases hfb : (from_binary b : Except StdError TokenMarketSizeResponse) <;> simp only [hfb]
      · simp only [hq]
    · simp only [hq]
  rw [h]
  exact forwards_match q (.Custom (.token_market_size p)) from_binary

/-- Pass-through behaviour of `query_reserve_amount`: the handler result decodes the host
answer exactly when the host succeeds with a blob of the declared type, and
every failure is surfaced as an error. -/
theorem forwards_reserve_amount (q : Querier) (st : Storage) (p : ReserveAmountParams) :
    Forwards q (.Custom (.reserve_amount p)) (from_binary (α := ReserveAmountResponse))
      (query_reserve_amount { storage := st, querier := q } p) := by
  have h : query_reserve_amount { storage := st, querier := q } p =
      match q (.Custom (.reserve_amount p)) with
      | .Err e => .error (.generic_err ("Querier system error: " ++ e))
      | .Ok (.Err e) => .error (.generic_err ("Querier contract error: " ++ e))
      | .Ok (.Ok b) => from_binary b := by
    unfold query_reserve_amount query_chain
    rcases hq : q (QueryRequest.Custom (StructUmeeQuery.reserve_amount p)) with cr | e
    · rcases cr with b | e
      · simp only [hq]
        cases hfb : (from_binary b : Except StdError ReserveAmountResponse) <;> simp only [hfb]
      · simp only [hq]
    · simp only [hq]
  rw [h]
  exact forwards_match q (.Custom (.reserve_amount p)) from_binary

/-- Pass-through behaviour of `query_collateral`: the handler result decodes the host
answer exactly when the host succeeds with a blob of the declared type, and
every failure is surfaced as an error. -/
theorem forwards_collateral (q : Querier) (st : Storage) (p : CollateralParams) :
    Forwards q (.Custom (.collateral p)) (from_binary (α := CollateralResponse))
      (query_collateral { storage := st, querier := q } p) := by
  have h : query_collateral { storage := st, querier := q } p =
      match q (.Custom (.collateral p)) with
      | .Err e => .error (.generic_err ("Querier system error: " ++ e))
      | .Ok (.Err e) => .error (.generic_err ("Querier contract error: " ++ e))
      | .Ok (.Ok b) => from_binary b := by
    unfold query_collateral query_chain
    rcases hq : q (QueryRequest.Custom (StructUmeeQuery.collateral p)) with cr | e
    · rcases cr with b | e
      · simp only [hq]
        cases hfb : (from_binary b : Except StdError CollateralResponse) <;> simp only [hfb]
      · simp only [hq]
    · simp only [hq]
  rw [h]
  exact forwards_match q (.Custom (.collateral p)) from_binary

/-- Pass-through behaviour of `query_collateral_value`: the handler result decodes the host
answer exactly when the host succeeds with a blob of the declared type, and
every failure is surfaced as an error. -/
theorem forwards_collateral_value (q : Querier) (st : Storage) (p : CollateralValueParams) :
    Forwards q (.Custom (.collateral_value p)) (from_binary (α := CollateralValueResponse))
      (query_collateral_value { storage := st, querier := q } p) := by
  have h : query_collateral_value { storage := st, querier := q } p =
      match q (.Custom (.collateral_value p)) with
      | .Err e => .error (.generic_err ("Querier system error: " ++ e))
      | .Ok (.Err e) => .error (.generic_err ("Querier contract error: " ++ e))
      | .Ok (.Ok b) => from_binary b := by
    unfold query_collateral_value query_chain
    rcases hq : q (QueryRequest.Custom (StructUmeeQuery.collateral_value p)) with cr | e
    · rcases cr with b | e
      · simp only [hq]
        cases hfb : (from_binary b : Except StdError CollateralValueResponse) <;> simp only [hfb]
      · simp only [hq]
    · simp only [hq]
  rw [h]
  exact forwards_match q (.Custom (.collateral_value p)) from_binary

/-- Pass-through behaviour of `query_exchange_rates`: the handler result decodes the host
answer exactly when the host succeeds with a blob of the declared type, and
every failure is surfaced as an error. -/
theorem forwards_exchange_rates (q : Querier) (st : Storage) (p : ExchangeRatesParams) :
    Forwards q (.Custom (.exchange_rates p)) (from_binary (α := ExchangeRatesResponse))
      (query_exchange_rates { storage := st, querier := q } p) := by
  have h : query_exchange_rates { storage := st, querier := q } p =
      match q (.Custom (.exchange_rates p)) with
      | .Err e => .error (.generic_err ("Querier system error: " ++ e))
      | .Ok (.Err e) => .error (.generic_err ("Querier contract error: " ++ e))
      | .Ok (.Ok b) => from_binary b := by
    unfold query_exchange_rates query_chain
    rcases hq : q (QueryRequest.Custom (StructUmeeQuery.exchange_rates p)) with cr | e
    · rcases cr with b | e
      · simp only [hq]
        cases hfb : (from_binary b : Except StdError ExchangeRatesResponse) <;> simp only [hfb]
      · simp only [hq]
    · simp only [hq]
  rw [h]
  exact forwards_match q (.Custom (.exchange_rates p)) from_binary

/-- C1: for every stored state and every ChangeOwner execute message whose
caller is not the stored owner, execution fails with the Unauthorized error;
an error result carries no new storage, so the stored state is unchanged. -/
theorem change_owner_unauthorized (st : State) (env : Env) (info : MessageInfo)
    (new_owner : Addr) (h : info.sender ≠ st.owner) :
    execute (some st) env info (.ChangeOwner new_owner) =
      .error .Unauthorized := by
  simp [execute, try_change_owner, Item_update, h]

/-- Witness for C1 at a concrete state and caller. -/
theorem change_owner_unauthorized_witness :
    execute (some { owner := "creator" }) () { sender := "mallory", funds := [] }
        (.ChangeOwner "mallory") = .error .Unauthorized :=
  change_owner_unauthorized { owner := "creator" } ()
    { sender := "mallory", funds := [] } "mallory" (by decide)

/-- C2: when the caller is the stored owner, ChangeOwner succeeds and the
stored owner becomes the new owner given in the message. -/
theorem change_owner_ok (st : State) (env : Env) (info : MessageInfo)
    (new_owner : Addr) (h : info.sender = st.owner) :
    execute (some st) env info (.ChangeOwner new_owner) =
      .ok ({ messages := [],
             attributes := [{ key := "method", value := "change_owner" }] },
        some { owner := new_owner }) := by
  simp [execute, try_change_owner, Item_update, h, Response.new, Response.add_attribute]

/-- Witness for C2 at a concrete state and caller. -/
theorem change_owner_ok_witness :
    execute (some { owner := "creator" }) () { sender := "creator", funds := [] }
        (.ChangeOwner "heir") =
      .ok ({ messages := [],
             attributes := [{ key := "method", value := "change_owner" }] },
        some { owner := "heir" }) :=
  change_owner_ok { owner := "creator" } () { sender := "creator", funds := [] }
    "heir" rfl

/-- C3: ChangeOwner is the only local state mutation: every other execute
message leaves the stored state unchanged.  (Queries receive read-only deps
and return no storage in this embedding, mirroring the `Deps`/`DepsMut` split
of the source, so no query can change the stored state.) -/
theorem execute_frame (storage : Storage) (env : Env) (info : MessageInfo)
    (msg : ExecuteMsg) (h : ∀ a, msg ≠ .ChangeOwner a)
    (r : Response StructUmeeMsg) (storage1 : Storage)
    (hr : execute storage env info msg = .ok (r, storage1)) :
    storage1 = storage := by
  cases msg with
  | ChangeOwner a => exact absurd rfl (h a)
  | Chain m =>
      rcases hm : msg_chain m with e | r1
      · simp [execute, hm] at hr
      · simp [execute, hm] at hr
        exact hr.2.symm
  | Umee m =>
      cases m with
      | Leverage lm =>
          rcases hm : execute_leverage lm with e | r1
          · simp [execute, hm] at hr
          · simp [execute, hm] at hr
            exact hr.2.symm
  | LendAsset p =>
      rcases hm : execute_lend p with e | r1
      · simp [execute, hm] at hr
      · simp [execute, hm] at hr
        exact hr.2.symm

/-- Witness for C3 at a concrete non-ChangeOwner message. -/
theorem execute_frame_witness :
    (some { owner := "creator" } : Storage) = some { owner := "creator" } :=
  execute_frame (some { owner := "creator" }) () { sender := "bob", funds := [] }
    (.LendAsset { payload := "x" }) (fun _ h => nomatch h)
    { messages := [StructUmeeMsg.lend_asset { payload := "x" }],
      attributes := [{ key := "method", value := "lend_asset" }] }
    (some { owner := "creator" }) rfl

/-- C4: with a stored state, GetOwner answers an OwnerResponse holding the
stored owner, for every querier: the host is never consulted. -/
theorem get_owner_query (st : State) (q : Querier) (env : Env) :
    query { storage := some st, querier := q } env .GetOwner =
      .ok (to_binary ({ owner := st.owner } : OwnerResponse)) := rfl

/-- C5 (failing evaluation): a WithdrawAsset leverage execute message yields
the withdraw-asset chain message, but its method attribute is the literal
"lend_asset" (contract.rs line 129), not an attribute identifying the
withdraw operation, although the message itself is assigned to
"withdraw_asset". -/
theorem withdraw_method_attribute_eval :
    execute none () { sender := "alice", funds := [] }
        (.Umee (.Leverage (.WithdrawAsset { payload := "w" }))) =
      .ok ({ messages := [StructUmeeMsg.withdraw_asset { payload := "w" }],
             attributes := [{ key := "method", value := "lend_asset" }] },
        none) ∧
    (StructUmeeMsg.withdraw_asset { payload := "w" }).assigned_str =
      "withdraw_asset" :=
  ⟨rfl, rfl⟩

/-- C8: instantiation always succeeds, stores the sender as owner and answers
with the method=instantiate and owner=sender attributes. -/
theorem instantiate_ok (storage : Storage) (env : Env) (info : MessageInfo)
    (msg : InstantiateMsg) :
    instantiate storage env info msg =
      .ok ({ messages := [],
             attributes := [{ key := "method", value := "instantiate" },
                            { key := "owner", value := info.sender }] },
        some { owner := info.sender }) := rfl

/-- C9: the direct shortcut variants and the Umee-wrapped variants are the
same operation: Borrowed, and LendAsset, behave identically in both
spellings, for every host behaviour and every state. -/
theorem direct_shortcut_equiv :
    (∀ (deps : Deps) (env : Env) (p : BorrowedParams),
        query deps env (.Borrowed p) = query deps env (.Umee (.Leverage (.Borrowed p)))) ∧
    (∀ (storage : Storage) (env : Env) (info : MessageInfo) (p : LendAssetParams),
        execute storage env info (.LendAsset p) =
          execute storage env info (.Umee (.Leverage (.LendAsset p)))) :=
  ⟨fun _ _ _ => rfl, fun _ _ _ _ => rfl⟩

/-- C10: `ExecuteMsg::Chain(m)` fails with the custom "invalid umee msg"
error exactly when `m.valid()` is false; otherwise it succeeds carrying `m`
as its single message and the method attribute `m.assigned_str()`. -/
theorem chain_msg_dispatch (storage : Storage) (env : Env) (info : MessageInfo)
    (m : StructUmeeMsg) :
    (m.valid = false → execute storage env info (.Chain m) =
        .error (.CustomError "invalid umee msg")) ∧
    (m.valid = true → execute storage env info (.Chain m) =
        .ok ({ messages := [m],
               attributes := [{ key := "method", value := m.assigned_str }] },
          storage)) := by
  constructor
  · intro h
    simp [execute, msg_chain, h]
  · intro h
    simp [execute, msg_chain, h, Response.new, Response.add_attribute,
      Response.add_message]

/-- C6: every pass-through typed query handler wraps its params into the
corresponding custom chain query, calls the host, and answers Ok of the
decoded response exactly when the host succeeds with a blob that decodes to
the declared response type; host system errors, host contract errors and
decode failures come back as errors. -/
theorem typed_queries_forward :
    (∀ (q : Querier) (st : Storage) (p : BorrowedParams),
        Forwards q (.Custom (.borrowed p)) (from_binary (α := BorrowedResponse))
          (query_borrowed { storage := st, querier := q } p)) ∧
    (∀ (q : Querier) (st : Storage) (p : RegisteredTokensParams),
        Forwards q (.Custom (.registered_tokens p)) (from_binary (α := RegisteredTokensResponse))
          (query_registered_tokens { storage := st, querier := q } p)) ∧
    (∀ (q : Querier) (st : Storage) (p : LeverageParametersParams),
        Forwards q (.Custom (.leverage_parameters p)) (from_binary (α := LeverageParametersResponse))
          (query_leverage_parameters { storage := st, querier := q } p)) ∧
    (∀ (q : Querier) (st : Storage) (p : BorrowedValueParams),
        Forwards q (.Custom (.borrowed_value p)) (from_binary (α := BorrowedValueResponse))
          (query_borrowed_value { storage := st, querier := q } p)) ∧
    (∀ (q : Querier) (st : Storage) (p : SuppliedParams),
        Forwards q (.Custom (.supplied p)) (from_binary (α := SuppliedResponse))
          (query_supplied { storage := st, querier := q } p)) ∧
    (∀ (q : Querier) (st : Storage) (p : SuppliedValueParams),
        Forwards q (.Custom (.supplied_value p)) (from_binary (α := SuppliedValueResponse))
          (query_supplied_value { storage := st, querier := q } p)) ∧
    (∀ (q : Querier) (st : Storage) (p : AvailableBorrowParams),
        Forwards q (.Custom (.available_borrow p)) (from_binary (α := AvailableBorrowResponse))
          (query_available_borrow { storage := st, querier := q } p)) ∧
    (∀ (q : Querier) (st : Storage) (p : BorrowAPYParams),
        Forwards q (.Custom (.borrow_apy p)) (from_binary (α := BorrowAPYResponse))
          (query_borrow_apy { storage := st, querier := q } p)) ∧
    (∀ (q : Querier) (st : Storage) (p : SupplyAPYParams),
        Forwards q (.Custom (.supply_apy p)) (from_binary (α := SupplyAPYResponse))
          (query_supply_apy { storage := st, querier := q } p)) ∧
    (∀ (q : Querier) (st : Storage) (p : MarketSizeParams),
        Forwards q (.Custom (.market_size p)) (from_binary (α := MarketSizeResponse))
          (query_market_size { storage := st, querier := q } p)) ∧
    (∀ (q : Querier) (st : Storage) (p : TokenMarketSizeParams),
        Forwards q (.Custom (.token_market_size p)) (from_binary (α := TokenMarketSizeResponse))
          (query_token_market_size { storage := st, querier := q } p)) ∧
    (∀ (q : Querier) (st : Storage) (p : ReserveAmountParams),
        Forwards q (.Custom (.reserve_amount p)) (from_binary (α := ReserveAmountResponse))
          (query_reserve_amount { storage := st, querier := q } p)) ∧
    (∀ (q : Querier) (st : Storage) (p : CollateralParams),
        Forwards q (.Custom (.collateral p)) (from_binary (α := CollateralResponse))
          (query_collateral { storage := st, querier := q } p)) ∧
    (∀ (q : Querier) (st : Storage) (p : CollateralValueParams),
        Forwards q (.Custom (.collateral_value p)) (from_binary (α := CollateralValueResponse))
          (query_collateral_value { storage := st, querier := q } p)) ∧
    (∀ (q : Querier) (st : Storage) (p : ExchangeRatesParams),
        Forwards q (.Custom (.exchange_rates p)) (from_binary (α := ExchangeRatesResponse))
          (query_exchange_rates { storage := st, querier := q } p)) :=
  ⟨forwards_borrowed, forwards_registered_tokens, forwards_leverage_parameters, forwards_borrowed_value, forwards_supplied, forwards_supplied_value, forwards_available_borrow, forwards_borrow_apy, forwards_supply_apy, forwards_market_size, forwards_token_market_size, forwards_reserve_amount, forwards_collateral, forwards_collateral_value, forwards_exchange_rates⟩

/-- C7: every query the host answers successfully comes back re-encoded: the
raw Chain variant returns the host blob unchanged, and every typed variant
returns the serde re-encoding of the response decoded from the host blob. -/
theorem query_reencode_roundtrip :
    (∀ (q : Querier) (st : Storage) (env : Env) (request : QueryRequest) (b : Binary),
        q request = .Ok (.Ok b) →
        query { storage := st, querier := q } env (.Chain request) = .ok b) ∧
    (∀ (q : Querier) (st : Storage) (env : Env) (p : BorrowedParams) (b : Binary) (r : BorrowedResponse),
        q (.Custom (.borrowed p)) = .Ok (.Ok b) → from_binary b = .ok r →
        query { storage := st, querier := q } env (.Borrowed p) = .ok (to_binary r)) ∧
    (∀ (q : Querier) (st : Storage) (env : Env) (p : ExchangeRatesParams) (b : Binary) (r : ExchangeRatesResponse),
        q (.Custom (.exchange_rates p)) = .Ok (.Ok b) → from_binary b = .ok r →
        query { storage := st, querier := q } env (.ExchangeRates p) = .ok (to_binary r)) ∧
    (∀ (q : Querier) (st : Storage) (env : Env) (p : RegisteredTokensParams) (b : Binary) (r : RegisteredTokensResponse),
        q (.Custom (.registered_tokens p)) = .Ok (.Ok b) → from_binary b = .ok r →
        query { storage := st, querier := q } env (.RegisteredTokens p) = .ok (to_binary r)) ∧
    (∀ (q : Querier) (st : Storage) (env : Env) (p : LeverageParametersParams) (b : Binary) (r : LeverageParametersResponse),
        q (.Custom (.leverage_parameters p)) = .Ok (.Ok b) → from_binary b = .ok r →
        query { storage := st, querier := q } env (.LeverageParameters p) = .ok (to_binary r)) ∧
    (∀ (q : Querier) (st : Storage) (env : Env) (p : BorrowedValueParams) (b : Binary) (r : BorrowedValueResponse),
        q (.Custom (.borrowed_value p)) = .Ok (.Ok b) → from_binary b = .ok r →
        query { storage := st, querier := q } env (.BorrowedValue p) = .ok (to_binary r)) ∧
    (∀ (q : Querier) (st : Storage) (env : Env) (p : BorrowedParams) (b : Binary) (r : BorrowedResponse),
        q (.Custom (.borrowed p)) = .Ok (.Ok b) → from_binary b = .ok r →
        query { storage := st, querier := q } env (.Umee (.Leverage (.Borrowed p))) =
          .ok (to_binary r)) ∧
    (∀ (q : Querier) (st : Storage) (env : Env) (p : RegisteredTokensParams) (b : Binary) (r : RegisteredTokensResponse),
        q (.Custom (.registered_tokens p)) = .Ok (.Ok b) → from_binary b = .ok r →
        query { storage := st, querier := q } env (.Umee (.Leverage (.RegisteredTokens p))) =
          .ok (to_binary r)) ∧
    (∀ (q : Querier) (st : Storage) (env : Env) (p : LeverageParametersParams) (b : Binary) (r : LeverageParametersResponse),
        q (.Custom (.leverage_parameters p)) = .Ok (.Ok b) → from_binary b = .ok r →
        query { storage := st, querier := q } env (.Umee (.Leverage (.LeverageParameters p))) =
          .ok (to_binary r)) ∧
    (∀ (q : Querier) (st : Storage) (env : Env) (p : BorrowedValueParams) (b : Binary) (r : BorrowedValueResponse),
        q (.Custom (.borrowed_value p)) = .Ok (.Ok b) → from_binary b = .ok r →
        query { storage := st, querier := q } env (.Umee (.Leverage (.BorrowedValue p))) =
          .ok (to_binary r)) ∧
    (∀ (q : Querier) (st : Storage) (env : Env) (p : SuppliedParams) (b : Binary) (r : SuppliedResponse),
        q (.Custom (.supplied p)) = .Ok (.Ok b) → from_binary b = .ok r →
        query { storage := st, querier := q } env (.Umee (.Leverage (.Supplied p))) =
          .ok (to_binary r)) ∧
    (∀ (q : Querier) (st : Storage) (env : Env) (p : SuppliedValueParams) (b : Binary) (r : SuppliedValueResponse),
        q (.Custom (.supplied_value p)) = .Ok (.Ok b) → from_binary b = .ok r →
        query { storage := st, querier := q } env (.Umee (.Leverage (.SuppliedValue p))) =
          .ok (to_binary r)) ∧
    (∀ (q : Querier) (st : Storage) (env : Env) (p : AvailableBorrowParams) (b : Binary) (r : AvailableBorrowResponse),
        q (.Custom (.available_borrow p)) = .Ok (.Ok b) → from_binary b = .ok r →
        query { storage := st, querier := q } env (.Umee (.Leverage (.AvailableBorrow p))) =
          .ok (to_binary r)) ∧
    (∀ (q : Querier) (st : Storage) (env : Env) (p : BorrowAPYParams) (b : Binary) (r : BorrowAPYResponse),
        q (.Custom (.borrow_apy p)) = .Ok (.Ok b) → from_binary b = .ok r →
        query { storage := st, querier := q } env (.Umee (.Leverage (.BorrowAPY p))) =
          .ok (to_binary r)) ∧
    (∀ (q : Querier) (st : Storage) (env : Env) (p : SupplyAPYParams) (b : Binary) (r : SupplyAPYResponse),
        q (.Custom (.supply_apy p)) = .Ok (.Ok b) → from_binary b = .ok r →
        query { storage := st, querier := q } env (.Umee (.Leverage (.SupplyAPY p))) =
          .ok (to_binary r)) ∧
    (∀ (q : Querier) (st : Storage) (env : Env) (p : MarketSizeParams) (b : Binary) (r : MarketSizeResponse),
        q (.Custom (.market_size p)) = .Ok (.Ok b) → from_binary b = .ok r →
        query { storage := st, querier := q } env (.Umee (.Leverage (.MarketSize p))) =
          .ok (to_binary r)) ∧
    (∀ (q : Querier) (st : Storage) (env : Env) (p : TokenMarketSizeParams) (b : Binary) (r : TokenMarketSizeResponse),
        q (.Custom (.token_market_size p)) = .Ok (.Ok b) → from_binary b = .ok r →
        query { storage := st, querier := q } env (.Umee (.Leverage (.TokenMarketSize p))) =
          .ok (to_binary r)) ∧
    (∀ (q : Querier) (st : Storage) (env : Env) (p : ReserveAmountParams) (b : Binary) (r : ReserveAmountResponse),
        q (.Custom (.reserve_amount p)) = .Ok (.Ok b) → from_binary b = .ok r →
        query { storage := st, querier := q } env (.Umee (.Leverage (.ReserveAmount p))) =
          .ok (to_binary r)) ∧
    (∀ (q : Querier) (st : Storage) (env : Env) (p : CollateralParams) (b : Binary) (r : CollateralResponse),
        q (.Custom (.collateral p)) = .Ok (.Ok b) → from_binary b = .ok r →
        query { storage := st, querier := q } env (.Umee (.Leverage (.Collateral p))) =
          .ok (to_binary r)) ∧
    (∀ (q : Querier) (st : Storage) (env : Env) (p : CollateralValueParams) (b : Binary) (r : CollateralValueResponse),
        q (.Custom (.collateral_value p)) = .Ok (.Ok b) → from_binary b = .ok r →
        query { storage := st, querier := q } env (.Umee (.Leverage (.CollateralValue p))) =
          .ok (to_binary r)) ∧
    (∀ (q : Querier) (st : Storage) (env : Env) (p : ExchangeRatesParams) (b : Binary)
        (r : ExchangeRatesResponse),
        q (.Custom (.exchange_rates p)) = .Ok (.Ok b) → from_binary b = .ok r →
        query { storage := st, querier := q } env (.Umee (.Oracle (.ExchangeRates p))) =
          .ok (to_binary r)) :=
  ⟨fun q st env request b hq => by simp [query, query_chain, hq],
    fun q st env p b r hq hfb => by
      have h := ((forwards_borrowed q st p).1 r).mpr ⟨b, hq, hfb⟩
      simp [query, h],
    fun q st env p b r hq hfb => by
      have h := ((forwards_exchange_rates q st p).1 r).mpr ⟨b, hq, hfb⟩
      simp [query, h],
    fun q st env p b r hq hfb => by
      have h := ((forwards_registered_tokens q st p).1 r).mpr ⟨b, hq, hfb⟩
      simp [query, h],
    fun q st env p b r hq hfb => by
      have h := ((forwards_leverage_parameters q st p).1 r).mpr ⟨b, hq, hfb⟩
      simp [query, h],
    fun q st env p b r hq hfb => by
      have h := ((forwards_borrowed_value q st p).1 r).mpr ⟨b, hq, hfb⟩
      simp [query, h],
    fun q st env p b r hq hfb => by
      have h := ((forwards_borrowed q st p).1 r).mpr ⟨b, hq, hfb⟩
      simp [query, query_leverage, h],
    fun q st env p b r hq hfb => by
      have h := ((forwards_registered_tokens q st p).1 r).mpr ⟨b, hq, hfb⟩
      simp [query, query_leverage, h],
    fun q st env p b r hq hfb => by
      have h := ((forwards_leverage_parameters q st p).1 r).mpr ⟨b, hq, hfb⟩
      simp [query, query_leverage, h],
    fun q st env p b r hq hfb => by
      have h := ((forwards_borrowed_value q st p).1 r).mpr ⟨b, hq, hfb⟩
      simp [query, query_leverage, h],
    fun q st env p b r hq hfb => by
      have h := ((forwards_supplied q st p).1 r).mpr ⟨b, hq, hfb⟩
      simp [query, query_leverage, h],
    fun q st env p b r hq hfb => by
      have h := ((forwards_supplied_value q st p).1 r).mpr ⟨b, hq, hfb⟩
      simp [query, query_leverage, h],
    fun q st env p b r hq hfb => by
      have h := ((forwards_available_borrow q st p).1 r).mpr ⟨b, hq, hfb⟩
      simp [query, query_leverage, h],
    fun q st env p b r hq hfb => by
      have h := ((forwards_borrow_apy q st p).1 r).mpr ⟨b, hq, hfb⟩
      simp [query, query_leverage, h],
    fun q st env p b r hq hfb => by
      have h := ((forwards_supply_apy q st p).1 r).mpr ⟨b, hq, hfb⟩
      simp [query, query_leverage, h],
    fun q st env p b r hq hfb => by
      have h := ((forwards_market_size q st p).1 r).mpr ⟨b, hq, hfb⟩
      simp [query, query_leverage, h],
    fun q st env p b r hq hfb => by
      have h := ((forwards_token_market_size q st p).1 r).mpr ⟨b, hq, hfb⟩
      simp [query, query_leverage, h],
    fun q st env p b r hq hfb => by
      have h := ((forwards_reserve_amount q st p).1 r).mpr ⟨b, hq, hfb⟩
      simp [query, query_leverage, h],
    fun q st env p b r hq hfb => by
      have h := ((forwards_collateral q st p).1 r).mpr ⟨b, hq, hfb⟩
      simp [query, query_leverage, h],
    fun q st env p b r hq hfb => by
      have h := ((forwards_collateral_value q st p).1 r).mpr ⟨b, hq, hfb⟩
      simp [query, query_leverage, h],
    fun q st env p b r hq hfb => by
      have h := ((forwards_exchange_rates q st p).1 r).mpr ⟨b, hq, hfb⟩
      simp [query, query_oracle, h]⟩
end UmeeCW
